import Mathlib

/-!
Shallow embedding of `src/gtp_openAI.py`, a two-screen desktop chat client
(credential entry screen, then a streaming conversation screen).

The embedding models:
  * `ApiKeyCheckWorker.run` — the credential validator worker;
  * `ChatWorker.run` — the streaming completion worker, i.e. which text
    fragments it forwards for a given sequence of transport chunks;
  * `LoginScreen` — the validation / save flow writing `api_key` to QSettings;
  * `ChatScreen` — the session controller: conversation history, the pending
    assistant-text accumulator, the display sink (`QTextEdit`), and the
    enabled/disabled state of the input controls.

Qt's event dispatch is modelled by a step function over an event alphabet:
a button click or return-press reaches a slot only when the corresponding
widget is enabled; worker signals (`tokenReceived`, `finished`,
`errorOccurred`) are delivered in emission order while a worker is in
flight.  Network behaviour is an explicit parameter (the chunk list a
stream yields, or the result of `openai.Model.list`).
-/

/-- Message role: the program only ever appends `"user"` and `"assistant"`
role strings to `self.conversation`. -/
inductive Role where
  | user
  | assistant
deriving DecidableEq, BEq, Repr

/-- One entry of `self.conversation`: `{"role": ..., "content": ...}`. -/
structure Message where
  role : Role
  content : String
deriving DecidableEq, Repr

/-- Whitespace as recognised by Python `str.strip()` (ASCII part: space,
tab, newline, carriage return, vertical tab, form feed). -/
def pyIsSpace (c : Char) : Bool :=
  c = ' ' || c = '\t' || c = '\n' || c = '\r' || c = '\x0b' || c = '\x0c'

/-- Python `str.strip()`: drop leading and trailing whitespace. -/
def pyStrip (s : String) : String :=
  ⟨((s.data.dropWhile pyIsSpace).reverse.dropWhile pyIsSpace).reverse⟩

/-- One streaming chunk as seen by `ChatWorker.run`: the program reads
`chunk["choices"][0]["delta"].get("content", "")`, so all that matters is
the optional `content` field of the delta. -/
structure Chunk where
  content : Option String
deriving DecidableEq, Repr

/-- The fragment-forwarding loop of `ChatWorker.run`:
`for chunk in response: token = delta.get("content", ""); if token:
self.tokenReceived.emit(token)`.  Returns the forwarded tokens in arrival
order. -/
def ChatWorker_tokens : List Chunk → List String
  | [] => []
  | c :: rest =>
    let token := c.content.getD ""
    if token = "" then ChatWorker_tokens rest
    else token :: ChatWorker_tokens rest

/-- The data captured by a freshly constructed `ChatWorker(messages, api_key)`:
the history handed to the streaming request and the credential. -/
structure ChatWorkerData where
  messages : List Message
  api_key : String
deriving DecidableEq, Repr

/-- The state of `ChatScreen` that the specification's claims concern:
the committed conversation history, the pending assistant-text accumulator
(`self.current_assistant_text`), the enabled state of the send button and
the input field, the display sink (`self.chat_history`, modelled as a list
of lines), the stored credential, and the in-flight `ChatWorker` (if any). -/
structure ChatState where
  conversation : List Message
  current_assistant_text : String
  send_btn_enabled : Bool
  input_enabled : Bool
  chat_display : List String
  api_key : String
  worker : Option ChatWorkerData
deriving DecidableEq, Repr

/-- `ChatScreen.append_chat`: appends one line
`"<b>{sender}:</b> {message}"` to the display sink. -/
def append_chat (d : List String) (sender message : String) : List String :=
  d ++ ["<b>" ++ sender ++ ":</b> " ++ message]

/-- `cursor.movePosition(End); cursor.insertPlainText(token)`: append text
to the tail of the last displayed line (a fresh line if the display is
empty). -/
def appendToTail : List String → String → List String
  | [], t => [t]
  | [x], t => [x ++ t]
  | x :: y :: xs, t => x :: appendToTail (y :: xs) t

/-- `ChatScreen.__init__` after loading the credential from settings:
empty conversation, empty accumulator, controls enabled, empty display,
no worker in flight. -/
def initChatState (key : String) : ChatState :=
  { conversation := []
    current_assistant_text := ""
    send_btn_enabled := true
    input_enabled := true
    chat_display := []
    api_key := key
    worker := none }

/-- `ChatScreen.send_message` with the input field holding `raw`: strip the
text; if empty, return with no change; otherwise append the user message to
the display and to `self.conversation`, disable the controls, append an
empty assistant placeholder line, reset the accumulator to `""`, and start
a `ChatWorker` carrying the (just-extended) conversation and the stored
credential. -/
def send_message (st : ChatState) (raw : String) : ChatState :=
  let user_message := pyStrip raw
  if user_message = "" then st
  else
    { conversation := st.conversation ++ [⟨Role.user, user_message⟩]
      current_assistant_text := ""
      send_btn_enabled := false
      input_enabled := false
      chat_display :=
        append_chat (append_chat st.chat_display "User" user_message) "Assistant" ""
      api_key := st.api_key
      worker := some ⟨st.conversation ++ [⟨Role.user, user_message⟩], st.api_key⟩ }

/-- `ChatScreen.update_assistant_message(token)`: extend the accumulator and
splice the token onto the tail of the display. -/
def update_assistant_message (st : ChatState) (token : String) : ChatState :=
  { st with
    current_assistant_text := st.current_assistant_text ++ token
    chat_display := appendToTail st.chat_display token }

/-- `ChatScreen.on_chat_finished`: re-enable the controls, commit the
accumulated assistant text to `self.conversation`, append a blank display
line.  The worker signalled `finished`, so no stream is in flight. -/
def on_chat_finished (st : ChatState) : ChatState :=
  { st with
    send_btn_enabled := true
    input_enabled := true
    conversation := st.conversation ++ [⟨Role.assistant, st.current_assistant_text⟩]
    chat_display := st.chat_display ++ [""]
    worker := none }

/-- `ChatScreen.on_chat_error(error_msg)`: show a warning box (not modelled)
and re-enable the controls.  Nothing is committed to the conversation; the
worker's `run` has returned, so no stream is in flight. -/
def on_chat_error (st : ChatState) (_error_msg : String) : ChatState :=
  { st with
    send_btn_enabled := true
    input_enabled := true
    worker := none }

/-- Events reaching `ChatScreen`: a user submission (send-button click or
return-press with the input field holding `raw`), or one of the in-flight
worker's signals. -/
inductive Ev where
  | submit (raw : String)
  | token (t : String)
  | finished
  | error (msg : String)
deriving DecidableEq, Repr

/-- Qt event dispatch for `ChatScreen`: a submission reaches `send_message`
only while the send button / input field are enabled (they are disabled and
re-enabled together); worker signals invoke the connected slots. -/
def step (st : ChatState) : Ev → ChatState
  | Ev.submit raw => if st.send_btn_enabled then send_message st raw else st
  | Ev.token t => update_assistant_message st t
  | Ev.finished => on_chat_finished st
  | Ev.error msg => on_chat_error st msg

/-- Deliver a list of `tokenReceived` signals in order. -/
def deliverTokens (st : ChatState) (frags : List String) : ChatState :=
  frags.foldl (fun s f => step s (Ev.token f)) st

/-- Concatenation of a fragment list in order. -/
def concatAll : List String → String
  | [] => ""
  | f :: fs => f ++ concatAll fs

/-- Reachable `ChatScreen` states: start from `initChatState`, submissions
may arrive at any time (dispatch ignores them while the controls are
disabled), and worker signals arrive only while a worker is in flight —
`ChatWorker.run` only emits non-empty tokens (`if token:`), then exactly
one of `finished` / `errorOccurred`. -/
inductive Reachable : ChatState → Prop where
  | init (key : String) : Reachable (initChatState key)
  | submit (st : ChatState) (raw : String) :
      Reachable st → Reachable (step st (Ev.submit raw))
  | token (st : ChatState) (t : String) :
      Reachable st → st.worker.isSome = true → t ≠ "" →
      Reachable (step st (Ev.token t))
  | finished (st : ChatState) :
      Reachable st → st.worker.isSome = true → Reachable (step st Ev.finished)
  | error (st : ChatState) (msg : String) :
      Reachable st → st.worker.isSome = true → Reachable (step st (Ev.error msg))

/-- Reachable states of executions in which no stream ever fails (no
`errorOccurred` signal is delivered). -/
inductive ReachableNoErr : ChatState → Prop where
  | init (key : String) : ReachableNoErr (initChatState key)
  | submit (st : ChatState) (raw : String) :
      ReachableNoErr st → ReachableNoErr (step st (Ev.submit raw))
  | token (st : ChatState) (t : String) :
      ReachableNoErr st → st.worker.isSome = true → t ≠ "" →
      ReachableNoErr (step st (Ev.token t))
  | finished (st : ChatState) :
      ReachableNoErr st → st.worker.isSome = true →
      ReachableNoErr (step st Ev.finished)

-- Basic lemmas ---------------------------------------------------------

theorem string_empty_append (s : String) : "" ++ s = s := by
  cases s
  rfl

theorem deliverTokens_conversation (frags : List String) :
    ∀ st : ChatState, (deliverTokens st frags).conversation = st.conversation := by
  induction frags with
  | nil => intro st; rfl
  | cons f fs ih =>
    intro st
    simpa [deliverTokens, step, update_assistant_message] using
      ih (update_assistant_message st f)

theorem deliverTokens_acc (frags : List String) :
    ∀ st : ChatState,
      (deliverTokens st frags).current_assistant_text
        = st.current_assistant_text ++ concatAll frags := by
  induction frags with
  | nil => intro st; simp [deliverTokens, concatAll]
  | cons f fs ih =>
    intro st
    have h := ih (update_assistant_message st f)
    simp only [deliverTokens, List.foldl_cons, step] at h ⊢
    rw [h]
    simp [update_assistant_message, concatAll, String.append_assoc]

theorem deliverTokens_worker (frags : List String) :
    ∀ st : ChatState, (deliverTokens st frags).worker = st.worker := by
  induction frags with
  | nil => intro st; rfl
  | cons f fs ih =>
    intro st
    simpa [deliverTokens, step, update_assistant_message] using
      ih (update_assistant_message st f)

theorem deliverTokens_buttons (frags : List String) :
    ∀ st : ChatState,
      (deliverTokens st frags).send_btn_enabled = st.send_btn_enabled ∧
        (deliverTokens st frags).input_enabled = st.input_enabled := by
  induction frags with
  | nil => intro st; exact ⟨rfl, rfl⟩
  | cons f fs ih =>
    intro st
    simpa [deliverTokens, step, update_assistant_message] using
      ih (update_assistant_message st f)

-- Login screen and credential validator --------------------------------

/-- The module-level mutable state of the `openai` library that the program
touches: the global `openai.api_key`. -/
structure OpenAIModule where
  api_key : String
deriving DecidableEq, Repr

/-- `ApiKeyCheckWorker.run`: assign the candidate to the global
`openai.api_key`, call `openai.Model.list()` (modelled as a function from
the key in effect to success or an exception message), and emit
`finished(True, "")` on success or `finished(False, str(e))` on failure.
Returns the post-call library state and the emitted `(success, error)`
pair. -/
def ApiKeyCheckWorker_run (_g : OpenAIModule) (candidate : String)
    (model_list : String → Except String Unit) : OpenAIModule × (Bool × String) :=
  let g2 : OpenAIModule := { api_key := candidate }
  match model_list g2.api_key with
  | Except.ok _ => (g2, (true, ""))
  | Except.error e => (g2, (false, e))

-- `_g` is the library state before the call; `ApiKeyCheckWorker_run` never
-- reads it, which is what the idempotence theorem below records.

/-- `QSettings.setValue(key, value)` over an association-list model of the
settings store. -/
def settingsSetValue : List (String × String) → String → String → List (String × String)
  | [], k, v => [(k, v)]
  | (k2, v2) :: rest, k, v =>
    if k2 = k then (k, v) :: rest else (k2, v2) :: settingsSetValue rest k v

/-- `QSettings.value(key, default)` over the association-list model. -/
def settingsValue : List (String × String) → String → String → String
  | [], _, d => d
  | (k2, v2) :: rest, k, d => if k2 = k then v2 else settingsValue rest k d

/-- The state of `LoginScreen` that the claims concern: the validation flag,
the candidate credential captured at check time, the enabled state of the
two buttons, and the settings store the screen writes to. -/
structure LoginState where
  valid_api_key : Bool
  api_key : String
  check_btn_enabled : Bool
  save_btn_enabled : Bool
  settings : List (String × String)
deriving DecidableEq, Repr

/-- `LoginScreen.__init__`: flag false, empty candidate, Check enabled,
Save disabled; the store holds whatever it held before. -/
def initLoginState (store : List (String × String)) : LoginState :=
  { valid_api_key := false
    api_key := ""
    check_btn_enabled := true
    save_btn_enabled := false
    settings := store }

/-- `LoginScreen.check_api_key` with the input field holding `raw`: strip;
if empty, warn and return; otherwise record the candidate, disable Check
and start an `ApiKeyCheckWorker` (the network call itself is delivered
later as a `checkFinished` event). -/
def check_api_key (st : LoginState) (raw : String) : LoginState :=
  let key := pyStrip raw
  if key = "" then st
  else { st with api_key := key, check_btn_enabled := false }

/-- `LoginScreen.on_check_finished(success, error_msg)`: re-enable Check;
on success set the flag and enable Save, on failure clear the flag and
disable Save.  The settings store is not touched here. -/
def on_check_finished (st : LoginState) (success : Bool) (_error_msg : String) :
    LoginState :=
  if success then
    { st with check_btn_enabled := true, valid_api_key := true, save_btn_enabled := true }
  else
    { st with check_btn_enabled := true, valid_api_key := false, save_btn_enabled := false }

/-- `LoginScreen.save_api_key`: only when the flag is set, write the
candidate under key `"api_key"` and sync. -/
def save_api_key (st : LoginState) : LoginState :=
  if st.valid_api_key then
    { st with settings := settingsSetValue st.settings "api_key" st.api_key }
  else st

/-- Events reaching `LoginScreen`: a Check click (with the input field's
text), the worker's `finished(success, error_msg)` signal, and a Save
click. -/
inductive LoginEv where
  | clickCheck (raw : String)
  | checkFinished (success : Bool) (msg : String)
  | clickSave
deriving DecidableEq, Repr

/-- Qt event dispatch for `LoginScreen`: clicks reach the slots only while
the corresponding button is enabled. -/
def loginStep (st : LoginState) : LoginEv → LoginState
  | LoginEv.clickCheck raw =>
      if st.check_btn_enabled then check_api_key st raw else st
  | LoginEv.checkFinished success msg => on_check_finished st success msg
  | LoginEv.clickSave => if st.save_btn_enabled then save_api_key st else st

theorem settingsValue_setValue (s : List (String × String)) (k v d : String) :
    settingsValue (settingsSetValue s k v) k d = v := by
  induction s with
  | nil => simp [settingsSetValue, settingsValue]
  | cons p rest ih =>
    obtain ⟨k2, v2⟩ := p
    by_cases h : k2 = k
    · simp [settingsSetValue, settingsValue, h]
    · simp [settingsSetValue, settingsValue, h, ih]

-- Alternation of roles in the committed history -------------------------

/-- The opposite role. -/
def otherRole : Role → Role
  | Role.user => Role.assistant
  | Role.assistant => Role.user

/-- `altFrom e rs`: the role list `rs` alternates starting with `e`. -/
def altFrom : Role → List Role → Bool
  | _, [] => true
  | e, r :: rs => (r == e) && altFrom (otherRole e) rs

/-- The history alternates user, assistant, user, … -/
def chatAlternates (conv : List Message) : Bool :=
  altFrom Role.user (conv.map Message.role)

theorem otherRole_otherRole (e : Role) : otherRole (otherRole e) = e := by
  cases e <;> rfl

theorem altFrom_append (rs : List Role) :
    ∀ (e x : Role),
      altFrom e (rs ++ [x])
        = (altFrom e rs && (x == (if rs.length % 2 = 0 then e else otherRole e))) := by
  induction rs with
  | nil => intro e x; simp [altFrom]
  | cons r rest ih =>
    intro e x
    rw [List.cons_append]
    show ((r == e) && altFrom (otherRole e) (rest ++ [x])) = _
    rw [ih (otherRole e) x]
    rcases Nat.mod_two_eq_zero_or_one rest.length with h | h
    · have h1 : (rest.length + 1) % 2 = 1 := by omega
      simp [altFrom, h, h1, Bool.and_assoc]
    · have h0 : (rest.length + 1) % 2 = 0 := by omega
      simp [altFrom, h, h0, otherRole_otherRole, Bool.and_assoc]

-- Invariants ------------------------------------------------------------

theorem Reachable_buttons (st : ChatState) (h : Reachable st) :
    st.worker.isSome = !st.send_btn_enabled ∧
      st.input_enabled = st.send_btn_enabled := by
  induction h with
  | init key => simp [initChatState]
  | submit st raw hr ih =>
    cases hb : st.send_btn_enabled with
    | false => simpa [step, hb] using ih
    | true =>
      by_cases hs : pyStrip raw = ""
      · simpa [step, hb, send_message, hs] using ih
      · simp [step, hb, send_message, hs]
  | token st t hr hw hne ih => simpa [step, update_assistant_message] using ih
  | finished st hr hw ih => simp [step, on_chat_finished]
  | error st msg hr hw ih => simp [step, on_chat_error]

/-- The history-shape invariant maintained along error-free executions:
the committed history alternates user/assistant starting with user, its
parity matches whether a stream is in flight, and a stream is in flight
exactly while the controls are disabled. -/
def histInv (st : ChatState) : Prop :=
  chatAlternates st.conversation = true ∧
  st.conversation.length % 2 = (if st.worker.isSome then 1 else 0) ∧
  st.worker.isSome = !st.send_btn_enabled

theorem ReachableNoErr_histInv (st : ChatState) (h : ReachableNoErr st) :
    histInv st := by
  induction h with
  | init key => simp [histInv, initChatState, chatAlternates, altFrom]
  | submit st raw hr ih =>
    obtain ⟨halt, hpar, hbtn⟩ := ih
    cases hb : st.send_btn_enabled with
    | false =>
      have hstep : step st (Ev.submit raw) = st := by simp [step, hb]
      rw [hstep]
      exact ⟨halt, hpar, hbtn⟩
    | true =>
      by_cases hs : pyStrip raw = ""
      · have hstep : step st (Ev.submit raw) = st := by
          simp [step, hb, send_message, hs]
        rw [hstep]
        exact ⟨halt, hpar, hbtn⟩
      · have hnone : st.worker.isSome = false := by rw [hbtn, hb]; rfl
        have hlen : st.conversation.length % 2 = 0 := by
          simpa [hnone] using hpar
        refine ⟨?_, ?_, ?_⟩
        · simp only [step, hb, if_true, send_message, hs, if_false, chatAlternates]
          rw [show ((st.conversation ++ [⟨Role.user, pyStrip raw⟩] :
                List Message).map Message.role)
              = st.conversation.map Message.role ++ [Role.user] by simp]
          rw [altFrom_append]
          simp [chatAlternates] at halt
          simp [halt, List.length_map, hlen]
          decide
        · simp [step, hb, send_message, hs]
          omega
        · simp [step, hb, send_message, hs]
  | token st t hr hw hne ih =>
    simpa [step, update_assistant_message, histInv] using ih
  | finished st hr hw ih =>
    obtain ⟨halt, hpar, hbtn⟩ := ih
    have hlen : st.conversation.length % 2 = 1 := by simpa [hw] using hpar
    refine ⟨?_, ?_, ?_⟩
    · simp only [step, on_chat_finished, chatAlternates]
      rw [show ((st.conversation ++
            [⟨Role.assistant, st.current_assistant_text⟩] :
            List Message).map Message.role)
          = st.conversation.map Message.role ++ [Role.assistant] by simp]
      rw [altFrom_append]
      simp [chatAlternates] at halt
      simp [halt, List.length_map, hlen]
      decide
    · simp [step, on_chat_finished]
      omega
    · simp [step, on_chat_finished]

-- Claim theorems --------------------------------------------------------

/-- C1: for every streaming turn that ends with a `finished` ("complete")
event after a list of fragments, the assistant Message committed to the
conversation history has content equal to the concatenation of those
fragments in arrival order — none dropped, duplicated, or reordered. -/
theorem C1_commit_is_concat (st : ChatState) (raw : String) (frags : List String)
    (hEnabled : st.send_btn_enabled = true) (hNonempty : pyStrip raw ≠ "") :
    (step (deliverTokens (step st (Ev.submit raw)) frags) Ev.finished).conversation
      = st.conversation
          ++ [⟨Role.user, pyStrip raw⟩, ⟨Role.assistant, concatAll frags⟩] := by
  simp only [step, hEnabled, if_true, on_chat_finished]
  rw [deliverTokens_conversation, deliverTokens_acc]
  simp only [send_message, if_neg hNonempty]
  rw [string_empty_append, List.append_assoc]
  rfl

/-- Witness for C1: the spec's scenario — submitting `"hi"` and streaming
`["He", "llo", "!"]` then complete commits `{assistant, "Hello!"}`. -/
theorem C1_commit_is_concat_witness :
    (initChatState "k").send_btn_enabled = true ∧ pyStrip "hi" ≠ "" ∧
    (step (deliverTokens (step (initChatState "k") (Ev.submit "hi"))
        ["He", "llo", "!"]) Ev.finished).conversation
      = (initChatState "k").conversation
          ++ [⟨Role.user, pyStrip "hi"⟩,
              ⟨Role.assistant, concatAll ["He", "llo", "!"]⟩] :=
  ⟨rfl, by decide, C1_commit_is_concat (initChatState "k") "hi" ["He", "llo", "!"]
    rfl (by decide)⟩

/-- C2: a streaming turn interrupted by an `errorOccurred` event commits no
assistant Message — the history keeps only the user Message of the turn —
and the send button and input field are re-enabled. -/
theorem C2_error_no_commit (st : ChatState) (raw msg : String) (frags : List String)
    (hEnabled : st.send_btn_enabled = true) (hNonempty : pyStrip raw ≠ "") :
    (step (deliverTokens (step st (Ev.submit raw)) frags) (Ev.error msg)).conversation
        = st.conversation ++ [⟨Role.user, pyStrip raw⟩] ∧
    (step (deliverTokens (step st (Ev.submit raw)) frags)
        (Ev.error msg)).send_btn_enabled = true ∧
    (step (deliverTokens (step st (Ev.submit raw)) frags)
        (Ev.error msg)).input_enabled = true := by
  refine ⟨?_, rfl, rfl⟩
  simp only [step, hEnabled, if_true, on_chat_error]
  rw [deliverTokens_conversation]
  simp [send_message, if_neg hNonempty]

/-- Witness for C2: the spec's scenario — submit `"hi"`, stream `"Par"`,
then an error: history is `[{user, "hi"}]` and the controls are enabled. -/
theorem C2_error_no_commit_witness :
    (initChatState "k").send_btn_enabled = true ∧ pyStrip "hi" ≠ "" ∧
    ((step (deliverTokens (step (initChatState "k") (Ev.submit "hi")) ["Par"])
        (Ev.error "boom")).conversation
        = (initChatState "k").conversation ++ [⟨Role.user, pyStrip "hi"⟩] ∧
      (step (deliverTokens (step (initChatState "k") (Ev.submit "hi")) ["Par"])
        (Ev.error "boom")).send_btn_enabled = true ∧
      (step (deliverTokens (step (initChatState "k") (Ev.submit "hi")) ["Par"])
        (Ev.error "boom")).input_enabled = true) :=
  ⟨rfl, by decide,
    C2_error_no_commit (initChatState "k") "hi" "boom" ["Par"] rfl (by decide)⟩

/-- C3 fails as stated: the alternation half of the invariant does not hold
of every reachable state.  After a turn whose stream errors (no assistant
entry is committed) the re-enabled user can submit again, producing two
consecutive user entries: submit `"hi"`, stream error, submit `"yo"` is a
reachable execution whose history is `[{user,"hi"}, {user,"yo"}]`. -/
theorem C3_counterexample :
    Reachable (step (step (step (initChatState "k") (Ev.submit "hi"))
        (Ev.error "boom")) (Ev.submit "yo")) ∧
    (step (step (step (initChatState "k") (Ev.submit "hi"))
        (Ev.error "boom")) (Ev.submit "yo")).conversation
      = [⟨Role.user, "hi"⟩, ⟨Role.user, "yo"⟩] ∧
    chatAlternates (step (step (step (initChatState "k") (Ev.submit "hi"))
        (Ev.error "boom")) (Ev.submit "yo")).conversation = false := by
  refine ⟨?_, by decide, by decide⟩
  exact Reachable.submit _ "yo"
    (Reachable.error _ "boom"
      (Reachable.submit _ "hi" (Reachable.init "k")) (by decide))

/-- C3 (amended): in every state reachable by an execution in which no
stream errors, the committed history alternates user and assistant entries
in submission order.  (The controller holds a single accumulator field,
`current_assistant_text`, so at most one pending-response accumulator ever
exists; after an errored turn the next submission produces two consecutive
user entries, breaking alternation.) -/
theorem C3_alternation_no_error (st : ChatState) (h : ReachableNoErr st) :
    chatAlternates st.conversation = true :=
  (ReachableNoErr_histInv st h).1

/-- Witness for C3 (amended): submit `"hi"`, stream `"He"`, complete — the
resulting history alternates. -/
theorem C3_alternation_no_error_witness :
    ReachableNoErr (step (step (step (initChatState "k") (Ev.submit "hi"))
        (Ev.token "He")) Ev.finished) ∧
    chatAlternates (step (step (step (initChatState "k") (Ev.submit "hi"))
        (Ev.token "He")) Ev.finished).conversation = true := by
  have pf : ReachableNoErr (step (step (step (initChatState "k")
      (Ev.submit "hi")) (Ev.token "He")) Ev.finished) :=
    ReachableNoErr.finished _
      (ReachableNoErr.token _ "He"
        (ReachableNoErr.submit _ "hi" (ReachableNoErr.init "k"))
        (by decide) (by decide))
      (by decide)
  exact ⟨pf, C3_alternation_no_error _ pf⟩

/-- C4: while a stream is in flight, a submission event is rejected — the
send button and input field are disabled, so the click never reaches
`send_message`: the state is unchanged, nothing is appended to history, and
no second worker is started. -/
theorem C4_busy_submit_rejected (st : ChatState) (raw : String)
    (h : Reachable st) (hw : st.worker.isSome = true) :
    step st (Ev.submit raw) = st := by
  have hb := (Reachable_buttons st h).1
  rw [hw] at hb
  have hfalse : st.send_btn_enabled = false := by
    cases hbe : st.send_btn_enabled
    · rfl
    · rw [hbe] at hb
      simp at hb
  simp [step, hfalse]

/-- Witness for C4: right after submitting `"hi"` a worker is in flight and
a second submission leaves the state untouched. -/
theorem C4_busy_submit_rejected_witness :
    Reachable (step (initChatState "k") (Ev.submit "hi")) ∧
    (step (initChatState "k") (Ev.submit "hi")).worker.isSome = true ∧
    step (step (initChatState "k") (Ev.submit "hi")) (Ev.submit "again")
      = step (initChatState "k") (Ev.submit "hi") := by
  have hr : Reachable (step (initChatState "k") (Ev.submit "hi")) :=
    Reachable.submit _ "hi" (Reachable.init "k")
  exact ⟨hr, by decide, C4_busy_submit_rejected _ "again" hr (by decide)⟩

/-- C5: `ChatWorker.run` never forwards an empty fragment: every token it
emits is non-empty, and the emitted tokens are exactly the non-empty
deltas of the transport's chunks, in order. -/
theorem C5_no_empty_fragment (chunks : List Chunk) :
    (ChatWorker_tokens chunks).all (fun t => t != "") = true ∧
    ChatWorker_tokens chunks
      = (chunks.map (fun c => c.content.getD "")).filter (fun t => t != "") := by
  induction chunks with
  | nil => exact ⟨rfl, rfl⟩
  | cons c rest ih =>
    by_cases h : c.content.getD "" = ""
    · simpa [ChatWorker_tokens, h] using ih
    · simp [ChatWorker_tokens, h, ih.1, ih.2]

/-- C6: a submission whose text strips to the empty string is a complete
no-op: the state (history, accumulator, display, controls) is unchanged and
no worker is started. -/
theorem C6_empty_input_noop (st : ChatState) (raw : String)
    (hEmpty : pyStrip raw = "") :
    step st (Ev.submit raw) = st := by
  cases hb : st.send_btn_enabled <;> simp [step, hb, send_message, hEmpty]

/-- Witness for C6: submitting `"   "` from the initial state changes
nothing. -/
theorem C6_empty_input_noop_witness :
    pyStrip "   " = "" ∧
    step (initChatState "k") (Ev.submit "   ") = initChatState "k" :=
  ⟨by decide, C6_empty_input_noop (initChatState "k") "   " (by decide)⟩

/-- C7: a submission whose text strips non-empty appends exactly one user
Message `{user, stripped text}` to the history, and the streaming worker is
started with the history that already contains that message — the append
happens before the network call. -/
theorem C7_user_appended_before_call (st : ChatState) (raw : String)
    (hEnabled : st.send_btn_enabled = true) (hNonempty : pyStrip raw ≠ "") :
    (step st (Ev.submit raw)).conversation
        = st.conversation ++ [⟨Role.user, pyStrip raw⟩] ∧
    (step st (Ev.submit raw)).worker
        = some ⟨st.conversation ++ [⟨Role.user, pyStrip raw⟩], st.api_key⟩ := by
  constructor <;> simp [step, hEnabled, send_message, hNonempty]

/-- Witness for C7: submitting `" hi "` appends `{user, "hi"}` and hands
that extended history to the worker. -/
theorem C7_user_appended_before_call_witness :
    (initChatState "k").send_btn_enabled = true ∧ pyStrip " hi " ≠ "" ∧
    ((step (initChatState "k") (Ev.submit " hi ")).conversation
        = (initChatState "k").conversation ++ [⟨Role.user, pyStrip " hi "⟩] ∧
      (step (initChatState "k") (Ev.submit " hi ")).worker
        = some ⟨(initChatState "k").conversation ++ [⟨Role.user, pyStrip " hi "⟩],
            (initChatState "k").api_key⟩) :=
  ⟨rfl, by decide,
    C7_user_appended_before_call (initChatState "k") " hi " rfl (by decide)⟩

/-- C8: when the validator reports success, the subsequent Save click
persists the checked candidate to the settings store under key `"api_key"`
(the store then yields it back); when the validator reports failure, the
store is untouched — both immediately and under a Save click, because the
Save button is disabled and `valid_api_key` is false. -/
theorem C8_persist_only_on_success (st : LoginState) (m1 m2 : String) :
    (loginStep (loginStep st (LoginEv.checkFinished true m1))
        LoginEv.clickSave).settings
      = settingsSetValue st.settings "api_key" st.api_key ∧
    settingsValue
        (loginStep (loginStep st (LoginEv.checkFinished true m1))
          LoginEv.clickSave).settings "api_key" ""
      = st.api_key ∧
    (loginStep st (LoginEv.checkFinished false m2)).settings = st.settings ∧
    (loginStep (loginStep st (LoginEv.checkFinished false m2))
        LoginEv.clickSave).settings = st.settings := by
  refine ⟨?_, ?_, ?_, ?_⟩
  · simp [loginStep, on_check_finished, save_api_key]
  · simp [loginStep, on_check_finished, save_api_key, settingsValue_setValue]
  · simp [loginStep, on_check_finished]
  · simp [loginStep, on_check_finished, save_api_key]

/-- C9 fails as stated: the candidate credential *is* retained past the
validator call.  `ApiKeyCheckWorker.run` assigns the module-global
`openai.api_key`, which still holds the candidate after the call returns:
starting from a global state holding `""`, validating `"sk-test"` leaves
the global holding `"sk-test"`. -/
theorem C9_counterexample :
    (ApiKeyCheckWorker_run ⟨""⟩ "sk-test" (fun _ => Except.ok ())).1
        = ⟨"sk-test"⟩ ∧
    (⟨""⟩ : OpenAIModule) ≠ ⟨"sk-test"⟩ :=
  ⟨rfl, by decide⟩

/-- C9 (amended): the validator's result and emission are independent of
the library state before the call (so it is safely re-invocable and
repeated invocations with the same candidate and the same network
behaviour behave identically), and its only state effect beyond the
network call is setting the module-global `openai.api_key` to the
candidate, which is retained past the call. -/
theorem C9_idempotent_sets_global (g1 g2 : OpenAIModule) (candidate : String)
    (model_list : String → Except String Unit) :
    ApiKeyCheckWorker_run g1 candidate model_list
        = ApiKeyCheckWorker_run g2 candidate model_list ∧
    (ApiKeyCheckWorker_run g1 candidate model_list).1 = ⟨candidate⟩ := by
  cases hml : model_list candidate <;>
    simp [ApiKeyCheckWorker_run, hml]

/-- C10: every submission that starts a turn resets the accumulator to `""`
before streaming begins, so the assistant Message the turn commits is the
concatenation of that turn's fragments alone — partial text left in
`current_assistant_text` by a previously errored turn never leaks into a
later committed message. -/
theorem C10_accumulator_reset (st : ChatState) (raw : String)
    (frags : List String) (hEnabled : st.send_btn_enabled = true)
    (hNonempty : pyStrip raw ≠ "") :
    (step st (Ev.submit raw)).current_assistant_text = "" ∧
    (step (deliverTokens (step st (Ev.submit raw)) frags) Ev.finished).conversation
      = (step st (Ev.submit raw)).conversation
          ++ [⟨Role.assistant, concatAll frags⟩] := by
  constructor
  · simp [step, hEnabled, send_message, hNonempty]
  · simp only [step, hEnabled, if_true, on_chat_finished]
    rw [deliverTokens_conversation, deliverTokens_acc]
    simp only [send_message, if_neg hNonempty]
    rw [string_empty_append]

/-- Witness for C10: from a state whose accumulator still holds `"Par"`
(left by an errored turn), submitting `"next"` resets the accumulator and
the turn commits only the new fragment `"ok"`. -/
theorem C10_accumulator_reset_witness :
    ({ initChatState "k" with current_assistant_text := "Par" } :
        ChatState).send_btn_enabled = true ∧
    pyStrip "next" ≠ "" ∧
    ((step ({ initChatState "k" with current_assistant_text := "Par" })
        (Ev.submit "next")).current_assistant_text = "" ∧
      (step (deliverTokens (step ({ initChatState "k" with
          current_assistant_text := "Par" }) (Ev.submit "next")) ["ok"])
          Ev.finished).conversation
        = (step ({ initChatState "k" with current_assistant_text := "Par" })
            (Ev.submit "next")).conversation
            ++ [⟨Role.assistant, concatAll ["ok"]⟩]) :=
  ⟨rfl, by decide,
    C10_accumulator_reset
      ({ initChatState "k" with current_assistant_text := "Par" }) "next"
      ["ok"] rfl (by decide)⟩
